import Mathlib

/-!
Verification of the SliverUI push-channel client (`useWebSocket` hook,
`src/unnamed/part_002`, lines 66-384) and of the tunnel-stop operation.
The hook is embedded as an executable state machine: the React refs and
state cells become fields of `HookState`, the browser/WebSocket callbacks
become events of `WSEvent`, and each handler body becomes a pure function
`HookState → HookState × List Effect` recording its observable actions
(console logs, query invalidations, toasts, notifications, socket
close/open, timer scheduling, frame transmission) as an effect list.
-/

namespace SliverUI

/-- Fields of `message.data` that the dispatch switch reads
(`part_002` lines 131-228); each is optional, as in the loose JSON payload. -/
structure MsgData where
  sliver_connected : Option Bool
  name : Option String
  id : Option String
  remote_address : Option String
  beacon_id : Option String
  task_type : Option String
  beacon_name : Option String
  title : Option String
  message : Option String
  variant : Option String
deriving DecidableEq, Repr

/-- The push-channel envelope (`part_002` lines 71-75). The TypeScript type
annotates `event` with a union of literals, but at runtime `JSON.parse` can
produce any string, which is why the switch has a `default` branch; the model
therefore uses `String`. -/
structure WebSocketMessage where
  event : String
  data : Option MsgData
deriving DecidableEq, Repr

/-- JavaScript `a || b` on optional strings: `undefined`/`null` and the empty
string are falsy. -/
def jsOr (a b : Option String) : Option String :=
  match a with
  | some s => if s = "" then b else some s
  | none => b

/-- Rendering of an optional string inside a template literal: JavaScript
prints `undefined` for a missing value. -/
def jsUndef (o : Option String) : String := o.getD "undefined"

/-- Rendering of a nullable string inside a template literal: JavaScript
prints `null` for a null value. -/
def jsNull (o : Option String) : String := o.getD "null"

/-- Rendering of an optional boolean inside a template literal. -/
def jsUndefBool (o : Option Bool) : String :=
  match o with
  | some true => "true"
  | some false => "false"
  | none => "undefined"

/-- JavaScript truthiness of an optional string. -/
def jsTruthyStr (o : Option String) : Bool :=
  match o with
  | some s => !(s == "")
  | none => false

/-- `message.data?.f`: optional chaining through the optional `data`. -/
def getField (m : WebSocketMessage) (f : MsgData → Option String) : Option String :=
  m.data.bind f

/-- The observable actions a handler of the hook can perform. `addNotice`
models the notification store's `addNotification` call. -/
inductive Effect where
  | consoleLog (msg : String)
  | consoleError (msg : String)
  | consoleWarn (msg : String)
  | invalidateQueries (queryKey : List (Option String))
  | toast (variant : Option String) (title : Option String) (description : Option String)
  | addNotice (ty : String) (title : Option String) (message : Option String) (d : Option MsgData)
  | closeWS (code : Nat) (reason : String)
  | connectAttempt (url : String)
  | scheduleReconnect (ms : Nat)
  | scheduleOpen (ms : Nat)
  | sendFrame (payload : String)
deriving DecidableEq, Repr

/-- The `event` strings given a dedicated case by the dispatch switch
(`part_002` lines 131-228), matching the union type at line 72. -/
def recognizedEvents : List String :=
  ["connected", "session.new", "session.lost", "beacon.new", "beacon.checkin",
   "task_completed", "notification", "ping", "pong", "subscribed", "error"]

/-- The dispatch switch of `handleMessage` (`part_002` lines 131-228): the
effects performed for a successfully parsed message, translated case by case.
In the source, `pong`, `subscribed` and `error` share a branch whose body acts
only when the event is `error`; that is written here as separate cases. -/
def dispatchEffects (m : WebSocketMessage) : List Effect :=
  match m.event with
  | "connected" =>
      [.consoleLog ("WebSocket connected, sliver status: " ++
        jsUndefBool (m.data.bind MsgData.sliver_connected))]
  | "session.new" =>
      [.invalidateQueries [some "sessions"],
       .invalidateQueries [some "dashboard-stats"],
       .toast none (some "New Session Connected")
         (some (jsUndef (jsOr (getField m MsgData.name) (getField m MsgData.id)) ++
           " connected from " ++ jsUndef (jsOr (getField m MsgData.remote_address) (some "unknown")))),
       .addNotice "session" (some "New Session")
         (some (jsUndef (jsOr (getField m MsgData.name) (getField m MsgData.id)) ++
           " connected from " ++ jsUndef (jsOr (getField m MsgData.remote_address) (some "unknown"))))
         m.data]
  | "session.lost" =>
      [.invalidateQueries [some "sessions"],
       .invalidateQueries [some "dashboard-stats"],
       .toast (some "destructive") (some "Session Disconnected")
         (some ("Session " ++ jsUndef (getField m MsgData.id) ++ " has disconnected")),
       .addNotice "warning" (some "Session Disconnected")
         (some ("Session " ++ jsUndef (getField m MsgData.id) ++ " has disconnected")) m.data]
  | "beacon.new" =>
      [.invalidateQueries [some "beacons"],
       .invalidateQueries [some "dashboard-stats"],
       .toast none (some "New Beacon")
         (some (jsUndef (jsOr (getField m MsgData.name) (getField m MsgData.id)) ++ " first check-in")),
       .addNotice "beacon" (some "New Beacon")
         (some (jsUndef (jsOr (getField m MsgData.name) (getField m MsgData.id)) ++
           " first check-in from " ++ jsUndef (jsOr (getField m MsgData.remote_address) (some "unknown"))))
         m.data]
  | "beacon.checkin" =>
      [.invalidateQueries [some "beacons"],
       .invalidateQueries [some "dashboard-stats"]]
  | "task_completed" =>
      [.invalidateQueries [some "beacon-tasks", getField m MsgData.beacon_id],
       .toast none (some "Task Completed")
         (some ("Task " ++ jsUndef (getField m MsgData.task_type) ++ " completed for beacon " ++
           jsUndef (getField m MsgData.beacon_name))),
       .addNotice "info" (some "Task Completed")
         (some ("Task " ++ jsUndef (getField m MsgData.task_type) ++ " completed for " ++
           jsUndef (getField m MsgData.beacon_name))) m.data]
  | "notification" =>
      [.toast (jsOr (getField m MsgData.variant) (some "default"))
         (getField m MsgData.title) (getField m MsgData.message),
       .addNotice (if getField m MsgData.variant = some "destructive" then "error" else "info")
         (getField m MsgData.title) (getField m MsgData.message) m.data]
  | "ping" => []
  | "pong" => []
  | "subscribed" => []
  | "error" => [.consoleError ("WebSocket error: " ++ jsUndef (getField m MsgData.message))]
  | _ => [.consoleLog ("Unknown WebSocket event: " ++ m.event)]

/-- `WebSocket.readyState` values. -/
inductive ReadyState where
  | CONNECTING
  | OPEN
  | CLOSING
  | CLOSED
deriving DecidableEq, Repr

/-- Which code path created the socket held in `wsRef`: the effect body
(`openConnection`, lines 234-275, full handler set) or the imperative
`connect` callback (lines 325-352, which attaches no `onmessage` and a
reconnect-free `onclose`). -/
inductive SocketOrigin where
  | effect
  | manual
deriving DecidableEq, Repr

/-- The socket held in `wsRef.current`. -/
structure Sock where
  origin : SocketOrigin
  ready : ReadyState
deriving DecidableEq, Repr

/-- The stored `sliverui-auth` localStorage item, abstracted to the outcome of
`getToken`'s parsing (`part_002` lines 83-94): absent, unparseable JSON, or
parsed with an optional `state.accessToken`. -/
inductive StorageVal where
  | null
  | malformed
  | parsed (accessToken : Option String)
deriving DecidableEq, Repr

/-- `getToken` (`part_002` lines 83-94): returns `parsed.state?.accessToken || null`,
with `null` on a missing item or a JSON parse error. -/
def getToken : StorageVal → Option String
  | .null => none
  | .malformed => none
  | .parsed tok =>
      match tok with
      | some t => if t = "" then none else some t
      | none => none

/-- The mutable cells of the hook (`wsRef`, `reconnectCountRef`,
`reconnectTimeoutRef`, `isConnected`, `lastMessage`, the effect's `disposed`
flag) together with the ambient browser state the code reads
(localStorage item, page protocol and host). `timerPending` is true while a
`setTimeout(openConnection, reconnectInterval)` stored in
`reconnectTimeoutRef` has neither fired nor been cleared; `storageOpenPending`
is true while the un-ref'd `setTimeout(openConnection, 100)` of
`handleStorageChange` is outstanding. -/
structure HookState where
  ws : Option Sock
  reconnectCount : Nat
  timerPending : Bool
  storageOpenPending : Bool
  isConnected : Bool
  lastMessage : Option WebSocketMessage
  disposed : Bool
  auth : StorageVal
  pageHttps : Bool
  pageHost : String
deriving DecidableEq, Repr

/-- The hook's options with their defaults (`part_002` lines 103-108). -/
structure HookOptions where
  autoConnect : Bool
  reconnectAttempts : Nat
  reconnectInterval : Nat
deriving DecidableEq, Repr

/-- The defaults `autoConnect = true`, `reconnectAttempts = 5`,
`reconnectInterval = 3000` (`part_002` lines 105-107). -/
def defaultOptions : HookOptions := ⟨true, 5, 3000⟩

/-- `buildWebSocketUrl` (`part_002` lines 96-101). -/
def buildWebSocketUrl (s : HookState) : String :=
  (if s.pageHttps then "wss:" else "ws:") ++ "//" ++ s.pageHost ++ "/ws?token=" ++
    jsNull (getToken s.auth)

/-- `handleMessage` (`part_002` lines 124-232): the `onmessage` handler. Its
input is the outcome of `JSON.parse(event.data)` — `Except.error` when the
frame is not valid JSON, in which case the `catch` logs and nothing else
happens; on success `setLastMessage` runs and the switch dispatches. -/
def handleMessage (frame : Except Unit WebSocketMessage) (s : HookState) :
    HookState × List Effect :=
  match frame with
  | .error _ => (s, [.consoleError "Failed to parse WebSocket message:"])
  | .ok m => ({ s with lastMessage := some m }, dispatchEffects m)

/-- `openConnection` (`part_002` lines 234-275): bail out when disposed, when
the current socket is already OPEN, or when no token is available; otherwise
create a new effect-origin socket and store it in `wsRef`. -/
def openConnection (s : HookState) : HookState × List Effect :=
  if s.disposed then (s, [])
  else if s.ws.map Sock.ready = some ReadyState.OPEN then (s, [])
  else
    match getToken s.auth with
    | none => (s, [.consoleLog "No token available for WebSocket connection"])
    | some _ =>
        ({ s with ws := some ⟨.effect, .CONNECTING⟩ },
         [.connectAttempt (buildWebSocketUrl s)])

/-- The effect-socket `ws.onopen` (`part_002` lines 247-251). -/
def onOpenEffect (s : HookState) : HookState × List Effect :=
  ({ s with isConnected := true, reconnectCount := 0,
            ws := s.ws.map (fun w => { w with ready := .OPEN }) },
   [.consoleLog "WebSocket connected"])

/-- The effect-socket `ws.onclose` (`part_002` lines 259-269): clear the
connected flag and the ref, then — only when not disposed, the close code is
not 1000, and the retry count is still below `reconnectAttempts` — increment
the count and schedule `openConnection` after the constant
`reconnectInterval`. -/
def onCloseEffect (cfg : HookOptions) (code : Nat) (s : HookState) :
    HookState × List Effect :=
  let s1 := { s with isConnected := false, ws := none }
  if s.disposed = false ∧ code ≠ 1000 ∧ s.reconnectCount < cfg.reconnectAttempts then
    ({ s1 with reconnectCount := s.reconnectCount + 1, timerPending := true },
     [.consoleLog "WebSocket closed:",
      .consoleLog ("Attempting reconnection " ++ toString (s.reconnectCount + 1) ++ "/" ++
        toString cfg.reconnectAttempts),
      .scheduleReconnect cfg.reconnectInterval])
  else (s1, [.consoleLog "WebSocket closed:"])

/-- `handleStorageChange` (`part_002` lines 280-306): on a `sliverui-auth`
storage event, clear any pending reconnect timer, close and null the socket,
drop the connected flag; then, only when the new value parses to a truthy
`state.accessToken`, zero the retry counter and schedule `openConnection`
after 100 ms. The stored item itself has already changed to `newValue`. -/
def handleStorageChange (key : String) (newValue : StorageVal) (s : HookState) :
    HookState × List Effect :=
  if key ≠ "sliverui-auth" then (s, [])
  else
    let closeFx : List Effect := if s.ws.isSome then [.closeWS 1000 "Token changed"] else []
    let s1 := { s with timerPending := false, ws := none, isConnected := false,
                       auth := newValue }
    match newValue with
    | .parsed tok =>
        if jsTruthyStr tok then
          ({ s1 with reconnectCount := 0, storageOpenPending := true },
           closeFx ++ [.scheduleOpen 100])
        else (s1, closeFx)
    | _ => (s1, closeFx)

/-- The imperative `connect` callback (`part_002` lines 325-352): close any
existing socket, zero the retry counter, and — when a token exists — create a
manual-origin socket (whose handlers never schedule reconnects). It does not
clear a pending reconnect timer. -/
def connect (s : HookState) : HookState × List Effect :=
  let closeFx : List Effect := if s.ws.isSome then [.closeWS 1000 "Manual reconnect"] else []
  let s1 := { s with ws := none, reconnectCount := 0 }
  match getToken s1.auth with
  | none => (s1, closeFx)
  | some _ =>
      ({ s1 with ws := some ⟨.manual, .CONNECTING⟩ },
       closeFx ++ [.connectAttempt (buildWebSocketUrl s1)])

/-- The `disconnect` callback (`part_002` lines 354-366): unconditionally
clear any pending reconnect timer, close and null the socket if present, and
drop the connected flag. -/
def disconnect (s : HookState) : HookState × List Effect :=
  let closeFx : List Effect :=
    if s.ws.isSome then [.closeWS 1000 "User initiated disconnect"] else []
  ({ s with timerPending := false, ws := none, isConnected := false }, closeFx)

/-- The effect cleanup (`part_002` lines 310-322): set `disposed`, clear the
timer, close and null the socket, drop the connected flag. -/
def unmount (s : HookState) : HookState × List Effect :=
  let closeFx : List Effect :=
    if s.ws.isSome then [.closeWS 1000 "Component unmounted"] else []
  ({ s with disposed := true, timerPending := false, ws := none, isConnected := false },
   closeFx)

/-- A JSON value, the argument type of `send`. -/
inductive JsValue where
  | null
  | bool (b : Bool)
  | num (n : Int)
  | str (s : String)
  | arr (xs : List JsValue)
  | obj (fields : List (String × JsValue))

/-- JSON string escaping of one character (quote and backslash). -/
def escapeChar (c : Char) : String :=
  if c = '"' then "\\\"" else if c = '\\' then "\\\\" else String.singleton c

/-- JSON string escaping. -/
def escapeJson (s : String) : String :=
  String.join (s.toList.map escapeChar)

mutual

/-- `JSON.stringify` on the model of JSON values. -/
def jsonStringify : JsValue → String
  | .null => "null"
  | .bool b => if b then "true" else "false"
  | .num n => toString n
  | .str s => "\"" ++ escapeJson s ++ "\""
  | .arr xs => "[" ++ jsonStringifyArr xs ++ "]"
  | .obj fs => "\x7b" ++ jsonStringifyObj fs ++ "\x7d"

/-- Comma-separated serialization of an array's elements. -/
def jsonStringifyArr : List JsValue → String
  | [] => ""
  | [x] => jsonStringify x
  | x :: y :: xs => jsonStringify x ++ "," ++ jsonStringifyArr (y :: xs)

/-- Comma-separated serialization of an object's fields. -/
def jsonStringifyObj : List (String × JsValue) → String
  | [] => ""
  | [(k, v)] => "\"" ++ escapeJson k ++ "\":" ++ jsonStringify v
  | (k, v) :: f :: fs =>
      "\"" ++ escapeJson k ++ "\":" ++ jsonStringify v ++ "," ++ jsonStringifyObj (f :: fs)

end

/-- The `send` callback (`part_002` lines 368-375): transmit
`JSON.stringify(data)` only when the current socket's `readyState` is OPEN;
otherwise warn and do nothing — the state is untouched either way. -/
def send (data : JsValue) (s : HookState) : HookState × List Effect :=
  if s.ws.map Sock.ready = some ReadyState.OPEN then
    (s, [.sendFrame (jsonStringify data)])
  else
    (s, [.consoleWarn "WebSocket is not connected"])

/-- The events that drive the hook: socket callbacks (tagged with the origin
of the socket whose handler fires), timer expiries, storage events from other
tabs, and the three user-facing callbacks. `wsMessage` only exists for
effect-origin sockets, the only ones with an `onmessage` handler. -/
inductive WSEvent where
  | wsOpen (origin : SocketOrigin)
  | wsMessage (frame : Except Unit WebSocketMessage)
  | wsClose (origin : SocketOrigin) (code : Nat)
  | timerFire
  | storageOpenFire
  | storage (key : String) (newValue : StorageVal)
  | userConnect
  | userDisconnect
  | userSend (data : JsValue)
  | unmountEvt

/-- One step of the hook's state machine: each event runs the corresponding
handler body from the source. A timer that has been cleared never fires, so
`timerFire` with no pending timer is a no-op. The manual socket's `onopen`
(lines 339-342) and `onclose` (lines 344-347) only flip the flags. -/
def step (cfg : HookOptions) (s : HookState) (e : WSEvent) : HookState × List Effect :=
  match e with
  | .wsOpen .effect => onOpenEffect s
  | .wsOpen .manual =>
      ({ s with isConnected := true, reconnectCount := 0,
                ws := s.ws.map (fun w => { w with ready := .OPEN }) }, [])
  | .wsMessage frame => handleMessage frame s
  | .wsClose .effect code => onCloseEffect cfg code s
  | .wsClose .manual _ => ({ s with isConnected := false, ws := none }, [])
  | .timerFire =>
      if s.timerPending then openConnection { s with timerPending := false } else (s, [])
  | .storageOpenFire =>
      if s.storageOpenPending then openConnection { s with storageOpenPending := false }
      else (s, [])
  | .storage key v => handleStorageChange key v s
  | .userConnect => connect s
  | .userDisconnect => disconnect s
  | .userSend d => send d s
  | .unmountEvt => unmount s

/-- Run a sequence of events, keeping the final state. -/
def run (cfg : HookOptions) (s : HookState) (es : List WSEvent) : HookState :=
  es.foldl (fun s e => (step cfg s e).1) s

/-- Run a sequence of events, collecting all emitted effects in order. -/
def runFx (cfg : HookOptions) (s : HookState) (es : List WSEvent) :
    HookState × List Effect :=
  es.foldl (fun p e =>
    let r := step cfg p.1 e
    (r.1, p.2 ++ r.2)) (s, [])

/-- The hook's state right after the `useState`/`useRef` initializers
(`part_002` lines 110-114): no socket, zero retries, no timers, disconnected,
no message, not disposed. -/
def initState (auth : StorageVal) (https : Bool) (host : String) : HookState :=
  { ws := none, reconnectCount := 0, timerPending := false, storageOpenPending := false,
    isConnected := false, lastMessage := none, disposed := false,
    auth := auth, pageHttps := https, pageHost := host }

/-- The mount body of the main effect (`part_002` lines 119-122, 277): when
`autoConnect` holds, run `openConnection` once. -/
def mount (cfg : HookOptions) (s : HookState) : HookState × List Effect :=
  if cfg.autoConnect then openConnection s else (s, [])

/-- The delays (ms) of the reconnect timers scheduled within an effect list. -/
def reconnectDelays (fx : List Effect) : List Nat :=
  fx.filterMap (fun f =>
    match f with
    | .scheduleReconnect ms => some ms
    | _ => none)

/-! Helper lemmas shared by several theorems. -/

lemma dispatch_no_reconnect (m : WebSocketMessage) (ms : Nat) :
    Effect.scheduleReconnect ms ∉ dispatchEffects m := by
  unfold dispatchEffects
  split <;> simp

lemma dispatch_no_connect (m : WebSocketMessage) (url : String) :
    Effect.connectAttempt url ∉ dispatchEffects m := by
  unfold dispatchEffects
  split <;> simp

lemma openConnection_rc (s : HookState) :
    (openConnection s).1.reconnectCount = s.reconnectCount := by
  unfold openConnection
  repeat' split
  all_goals rfl

lemma openConnection_fx_no_reconnect (s : HookState) (ms : Nat) :
    Effect.scheduleReconnect ms ∉ (openConnection s).2 := by
  unfold openConnection
  repeat' split
  all_goals simp

/-- Case analysis of how one step can change the retry counter: it is zeroed,
left unchanged, or incremented under the guard `reconnectCount <
reconnectAttempts`. -/
lemma step_rc_cases (cfg : HookOptions) (s : HookState) (e : WSEvent) :
    (step cfg s e).1.reconnectCount = 0 ∨
    (step cfg s e).1.reconnectCount = s.reconnectCount ∨
    ((step cfg s e).1.reconnectCount = s.reconnectCount + 1 ∧
      s.reconnectCount < cfg.reconnectAttempts) := by
  cases e with
  | wsOpen o => cases o <;> simp [step, onOpenEffect]
  | wsMessage f => cases f <;> simp [step, handleMessage]
  | wsClose o code =>
      cases o with
      | effect =>
          simp only [step, onCloseEffect]
          split
          · next hc => exact Or.inr (Or.inr ⟨rfl, hc.2.2⟩)
          · exact Or.inr (Or.inl rfl)
      | manual => simp [step]
  | timerFire =>
      simp only [step]
      split
      · exact Or.inr (Or.inl (openConnection_rc { s with timerPending := false }))
      · exact Or.inr (Or.inl rfl)
  | storageOpenFire =>
      simp only [step]
      split
      · exact Or.inr (Or.inl (openConnection_rc { s with storageOpenPending := false }))
      · exact Or.inr (Or.inl rfl)
  | storage key v =>
      simp only [step, handleStorageChange]
      split
      · exact Or.inr (Or.inl rfl)
      · cases v with
        | parsed tok =>
            simp only
            split
            · exact Or.inl rfl
            · exact Or.inr (Or.inl rfl)
        | null => exact Or.inr (Or.inl rfl)
        | malformed => exact Or.inr (Or.inl rfl)
  | userConnect =>
      simp only [step, connect]
      split <;> exact Or.inl rfl
  | userDisconnect => simp [step, disconnect]
  | userSend d =>
      simp only [step, send]
      split <;> exact Or.inr (Or.inl rfl)
  | unmountEvt => simp [step, unmount]

lemma run_rc_le (cfg : HookOptions) (es : List WSEvent) (s : HookState)
    (h : s.reconnectCount ≤ cfg.reconnectAttempts) :
    (run cfg s es).reconnectCount ≤ cfg.reconnectAttempts := by
  induction es generalizing s with
  | nil => exact h
  | cons e es ih =>
      have h2 : (step cfg s e).1.reconnectCount ≤ cfg.reconnectAttempts := by
        have := step_rc_cases cfg s e
        omega
      simpa only [run, List.foldl_cons] using ih (step cfg s e).1 h2

/-! Concrete fixtures used by witnesses and counterexamples. -/

/-- A freshly initialized hook state with a valid stored token. -/
def w1State : HookState := initState (.parsed (some "tok")) false "sliver.local"

/-- A trace with two consecutive connection failures: the socket opens, closes
unexpectedly (code 1006), the reconnect timer fires, and the retry closes
unexpectedly again. -/
def c1Trace : List WSEvent :=
  [.wsOpen .effect, .wsClose .effect 1006, .timerFire, .wsClose .effect 1006]

/-- The reconnect delays scheduled along `c1Trace` under the default options
(`reconnectAttempts = 5`, `reconnectInterval = 3000`). -/
def c1Delays : List Nat :=
  reconnectDelays (runFx defaultOptions (mount defaultOptions w1State).1 c1Trace).2

/-- C1 (counterexample): with the default options, the delays scheduled before
the first and second reconnect attempts are both 3000 ms — they are equal, not
strictly increasing, and the second delay is not `min(base * 2^1, cap) =
2000 ms` for `base = 1s, cap = 30s` as the claim requires. -/
theorem C1_counterexample :
    c1Delays = [3000, 3000] ∧
    ¬ c1Delays.getD 0 0 < c1Delays.getD 1 0 ∧
    c1Delays.getD 1 0 ≠ min (1000 * 2 ^ 1) 30000 := by
  refine ⟨by rfl, by decide, by decide⟩

/-- C1 (amended): after an unexpected close with the retry budget not yet
exhausted, the effect-socket `onclose` schedules the next `openConnection`
after the constant configured `reconnectInterval` (3000 ms by default),
incrementing `reconnectCount`; the delay never depends on `reconnectCount` —
there is no exponential backoff, no cap and no jitter, so successive reconnect
delays are constant rather than strictly increasing. -/
theorem C1_constant_reconnect_delay (cfg : HookOptions) (s : HookState) (code : Nat)
    (hd : s.disposed = false) (hc : code ≠ 1000)
    (hr : s.reconnectCount < cfg.reconnectAttempts) :
    (step cfg s (.wsClose .effect code)).2 =
      [.consoleLog "WebSocket closed:",
       .consoleLog ("Attempting reconnection " ++ toString (s.reconnectCount + 1) ++ "/" ++
         toString cfg.reconnectAttempts),
       .scheduleReconnect cfg.reconnectInterval] ∧
    (step cfg s (.wsClose .effect code)).1.reconnectCount = s.reconnectCount + 1 := by
  simp only [step, onCloseEffect]
  rw [if_pos ⟨hd, hc, hr⟩]
  exact ⟨rfl, rfl⟩

/-- C1 witness: the amended statement evaluated on a fresh state after an
unexpected close with code 1006. -/
theorem C1_constant_reconnect_delay_witness :
    (step defaultOptions w1State (.wsClose .effect 1006)).2 =
      [.consoleLog "WebSocket closed:",
       .consoleLog ("Attempting reconnection " ++ toString (w1State.reconnectCount + 1) ++ "/" ++
         toString defaultOptions.reconnectAttempts),
       .scheduleReconnect defaultOptions.reconnectInterval] ∧
    (step defaultOptions w1State (.wsClose .effect 1006)).1.reconnectCount =
      w1State.reconnectCount + 1 :=
  C1_constant_reconnect_delay defaultOptions w1State 1006 rfl (by decide) (by decide)

/-- C3: from an open connection (not disposed), a clean close (code 1000)
drops the connection with the retry counter untouched and schedules no
reconnect, while an unexpected close (code ≠ 1000) with `reconnectCount`
below `reconnectAttempts` increments the counter and schedules a reconnect
timer of `reconnectInterval`. -/
theorem C3_close_transitions (cfg : HookOptions) (s : HookState) (code : Nat)
    (hOpen : s.isConnected = true) (hd : s.disposed = false) :
    (code = 1000 →
      (step cfg s (.wsClose .effect code)).1.isConnected = false ∧
      (step cfg s (.wsClose .effect code)).1.ws = none ∧
      (step cfg s (.wsClose .effect code)).1.reconnectCount = s.reconnectCount ∧
      ∀ ms, Effect.scheduleReconnect ms ∉ (step cfg s (.wsClose .effect code)).2) ∧
    (code ≠ 1000 → s.reconnectCount < cfg.reconnectAttempts →
      (step cfg s (.wsClose .effect code)).1.isConnected = false ∧
      (step cfg s (.wsClose .effect code)).1.timerPending = true ∧
      (step cfg s (.wsClose .effect code)).1.reconnectCount = s.reconnectCount + 1 ∧
      Effect.scheduleReconnect cfg.reconnectInterval ∈ (step cfg s (.wsClose .effect code)).2) := by
  constructor
  · intro h1000
    subst h1000
    simp only [step, onCloseEffect]
    rw [if_neg (by rintro ⟨-, hne, -⟩; exact hne rfl)]
    exact ⟨rfl, rfl, rfl, by simp⟩
  · intro hne hlt
    simp only [step, onCloseEffect]
    rw [if_pos ⟨hd, hne, hlt⟩]
    exact ⟨rfl, rfl, rfl, by simp⟩

/-- A hook state that is connected with an open effect socket. -/
def c3State : HookState :=
  { w1State with ws := some ⟨.effect, .OPEN⟩, isConnected := true }

/-- C3 witness: an unexpected close with code 1006 from the open state
schedules a 3000 ms reconnect. -/
theorem C3_witness :
    Effect.scheduleReconnect defaultOptions.reconnectInterval ∈
      (step defaultOptions c3State (.wsClose .effect 1006)).2 :=
  ((C3_close_transitions defaultOptions c3State 1006 rfl rfl).2 (by decide) (by decide)).2.2.2

/-- C4: a successfully parsed message whose `event` is outside the recognized
set falls to the switch's `default` branch: the handler records the message in
`lastMessage` (as it does for every parsed frame, before dispatch) and its
only dispatch action is a console log — no query invalidation, no toast, no
notification, no error state, and no socket close. -/
theorem C4_unknown_event_ignored (s : HookState) (m : WebSocketMessage)
    (h : m.event ∉ recognizedEvents) :
    handleMessage (.ok m) s =
      ({ s with lastMessage := some m },
       [.consoleLog ("Unknown WebSocket event: " ++ m.event)]) := by
  have hd : dispatchEffects m = [.consoleLog ("Unknown WebSocket event: " ++ m.event)] := by
    simp only [recognizedEvents, List.mem_cons, List.not_mem_nil, or_false, not_or] at h
    unfold dispatchEffects
    split <;> simp_all
  simp [handleMessage, hd]

/-- An envelope with an unrecognized event value. -/
def c4Msg : WebSocketMessage := ⟨"tunnel.update", none⟩

/-- C4 witness: the unrecognized event `tunnel.update` produces exactly one
console log. -/
theorem C4_witness :
    c4Msg.event ∉ recognizedEvents ∧
    handleMessage (.ok c4Msg) w1State =
      ({ w1State with lastMessage := some c4Msg },
       [.consoleLog ("Unknown WebSocket event: " ++ c4Msg.event)]) :=
  ⟨by decide, C4_unknown_event_ignored w1State c4Msg (by decide)⟩

/-- C7: whenever a socket's `onopen` handler fires (effect or manual socket),
the connected flag is set and `reconnectCount` is reset to 0, so a later
unexpected close starts the automatic retry budget afresh at the full
maximum. -/
theorem C7_open_resets_retryCount (cfg : HookOptions) (s : HookState)
    (origin : SocketOrigin) :
    (step cfg s (.wsOpen origin)).1.reconnectCount = 0 ∧
    (step cfg s (.wsOpen origin)).1.isConnected = true := by
  cases origin <;> exact ⟨rfl, rfl⟩

/-- C10: a frame whose payload is not valid JSON is caught by the handler's
`try`/`catch`: the state — `lastMessage`, the socket, the connected flag —
is returned unchanged, the only effect is a console error, and no exception
escapes (the handler is a total function). -/
theorem C10_invalid_json_ignored (s : HookState) :
    handleMessage (.error ()) s =
      (s, [.consoleError "Failed to parse WebSocket message:"]) := rfl

lemma openConnection_fx_no_send (s : HookState) (payload : String) :
    Effect.sendFrame payload ∉ (openConnection s).2 := by
  unfold openConnection
  repeat' split
  all_goals simp

lemma step_no_reconnect_at_max (cfg : HookOptions) (s : HookState) (e : WSEvent)
    (ms : Nat) (hrc : s.reconnectCount = cfg.reconnectAttempts) :
    Effect.scheduleReconnect ms ∉ (step cfg s e).2 := by
  cases e with
  | wsOpen o => cases o <;> simp [step, onOpenEffect]
  | wsMessage f =>
      cases f with
      | error u => simp [step, handleMessage]
      | ok m => simpa [step, handleMessage] using dispatch_no_reconnect m ms
  | wsClose o code =>
      cases o with
      | effect =>
          simp only [step, onCloseEffect]
          split
          · next hc => omega
          · simp
      | manual => simp [step]
  | timerFire =>
      simp only [step]
      split
      · exact openConnection_fx_no_reconnect { s with timerPending := false } ms
      · simp
  | storageOpenFire =>
      simp only [step]
      split
      · exact openConnection_fx_no_reconnect { s with storageOpenPending := false } ms
      · simp
  | storage key v =>
      by_cases hk : key ≠ "sliverui-auth"
      · simp [step, handleStorageChange, hk]
      · cases v with
        | parsed tok =>
            cases htok : jsTruthyStr tok <;> cases hw : s.ws.isSome <;>
              simp [step, handleStorageChange, hk, htok, hw]
        | null => cases hw : s.ws.isSome <;> simp [step, handleStorageChange, hk, hw]
        | malformed => cases hw : s.ws.isSome <;> simp [step, handleStorageChange, hk, hw]
  | userConnect =>
      simp only [step, connect]
      split <;> split <;> simp
  | userDisconnect =>
      simp only [step, disconnect]
      split <;> simp
  | userSend d =>
      simp only [step, send]
      split <;> simp
  | unmountEvt =>
      simp only [step, unmount]
      split <;> simp

lemma step_no_connect_when_quiescent (cfg : HookOptions) (s : HookState) (e : WSEvent)
    (url : String) (ht : s.timerPending = false) (hso : s.storageOpenPending = false)
    (hstorage : ∀ k v, e ≠ .storage k v) (hconn : e ≠ .userConnect) :
    Effect.connectAttempt url ∉ (step cfg s e).2 := by
  cases e with
  | wsOpen o => cases o <;> simp [step, onOpenEffect]
  | wsMessage f =>
      cases f with
      | error u => simp [step, handleMessage]
      | ok m => simpa [step, handleMessage] using dispatch_no_connect m url
  | wsClose o code =>
      cases o with
      | effect =>
          simp only [step, onCloseEffect]
          split <;> simp
      | manual => simp [step]
  | timerFire => simp [step, ht]
  | storageOpenFire => simp [step, hso]
  | storage key v => exact absurd rfl (hstorage key v)
  | userConnect => exact absurd rfl hconn
  | userDisconnect =>
      simp only [step, disconnect]
      split <;> simp
  | userSend d =>
      simp only [step, send]
      split <;> simp
  | unmountEvt =>
      simp only [step, unmount]
      split <;> simp

/-- C2: (a) along every event sequence from the mounted initial state,
`reconnectCount` never exceeds the configured `reconnectAttempts` (5 by
default); (b) in any state where the counter has reached the maximum, no step
ever schedules another automatic reconnect timer; (c) from an exhausted
quiescent state (counter at the maximum, no pending timers), no event other
than the explicit triggers — the manual `connect` callback or a
`sliverui-auth` credential change — can start a new connection attempt. -/
theorem C2_retryCount_bounded :
    (∀ (cfg : HookOptions) (auth : StorageVal) (https : Bool) (host : String)
       (es : List WSEvent),
       (run cfg (mount cfg (initState auth https host)).1 es).reconnectCount ≤
         cfg.reconnectAttempts) ∧
    (∀ (cfg : HookOptions) (s : HookState) (e : WSEvent) (ms : Nat),
       s.reconnectCount = cfg.reconnectAttempts →
       Effect.scheduleReconnect ms ∉ (step cfg s e).2) ∧
    (∀ (cfg : HookOptions) (s : HookState) (e : WSEvent) (url : String),
       s.timerPending = false → s.storageOpenPending = false →
       (∀ k v, e ≠ .storage k v) → e ≠ .userConnect →
       Effect.connectAttempt url ∉ (step cfg s e).2) := by
  refine ⟨?_, ?_, ?_⟩
  · intro cfg auth https host es
    apply run_rc_le
    have hm : (mount cfg (initState auth https host)).1.reconnectCount = 0 := by
      unfold mount
      split
      · exact openConnection_rc (initState auth https host)
      · rfl
    omega
  · exact step_no_reconnect_at_max
  · intro cfg s e url ht hso hstorage hconn
    exact step_no_connect_when_quiescent cfg s e url ht hso hstorage hconn

/-- A hook state with the retry budget exhausted and no pending timers. -/
def c2ExhState : HookState := { w1State with reconnectCount := 5 }

/-- C2 witness: from the exhausted state, a further unexpected close schedules
no reconnect timer, and a timer-fire event produces no connection attempt. -/
theorem C2_witness :
    Effect.scheduleReconnect 3000 ∉
      (step defaultOptions c2ExhState (.wsClose .effect 1006)).2 ∧
    Effect.connectAttempt "ws://sliver.local/ws?token=tok" ∉
      (step defaultOptions c2ExhState .timerFire).2 :=
  ⟨C2_retryCount_bounded.2.1 defaultOptions c2ExhState (.wsClose .effect 1006) 3000 rfl,
   C2_retryCount_bounded.2.2 defaultOptions c2ExhState .timerFire
     "ws://sliver.local/ws?token=tok" rfl rfl
     (fun _ _ h => WSEvent.noConfusion h) (fun h => WSEvent.noConfusion h)⟩

/-- Whether the new `sliverui-auth` storage value carries a truthy
`state.accessToken` — the condition under which `handleStorageChange`
resets the retry counter and schedules a reconnection. -/
def hasNewToken : StorageVal → Bool
  | .parsed tok => jsTruthyStr tok
  | _ => false

/-- A hook state that is open and has both a nonzero retry counter and a
pending reconnect timer. -/
def c5State : HookState :=
  { w1State with ws := some ⟨.effect, .OPEN⟩, isConnected := true,
                 reconnectCount := 3, timerPending := true }

/-- C5 (counterexample): a `sliverui-auth` storage change whose new value is
null (e.g. a logout in another tab) cancels the timer and closes the
connection but leaves `reconnectCount` at its old value 3 — it is not reset
to 0 as the claim states. -/
theorem C5_counterexample :
    (step defaultOptions c5State (.storage "sliverui-auth" .null)).1.reconnectCount = 3 ∧
    (step defaultOptions c5State (.storage "sliverui-auth" .null)).1.timerPending = false ∧
    (step defaultOptions c5State (.storage "sliverui-auth" .null)).1.ws = none ∧
    (3 : Nat) ≠ 0 := by
  refine ⟨by rfl, by rfl, by rfl, by decide⟩

/-- C5 (amended): a `sliverui-auth` credential change always cancels any
pending reconnect timer, closes the current socket (with code 1000) and drops
the connected flag; only when the new value carries a truthy access token does
it also reset `reconnectCount` to 0 and schedule a new connection 100 ms
later — when the new value has no token the manager stays disconnected with
`reconnectCount` unchanged and nothing scheduled. -/
theorem C5_credential_change (cfg : HookOptions) (s : HookState) (v : StorageVal) :
    (step cfg s (.storage "sliverui-auth" v)).1.timerPending = false ∧
    (step cfg s (.storage "sliverui-auth" v)).1.ws = none ∧
    (step cfg s (.storage "sliverui-auth" v)).1.isConnected = false ∧
    (s.ws.isSome = true →
      Effect.closeWS 1000 "Token changed" ∈ (step cfg s (.storage "sliverui-auth" v)).2) ∧
    (hasNewToken v = true →
      (step cfg s (.storage "sliverui-auth" v)).1.reconnectCount = 0 ∧
      Effect.scheduleOpen 100 ∈ (step cfg s (.storage "sliverui-auth" v)).2) ∧
    (hasNewToken v = false →
      (step cfg s (.storage "sliverui-auth" v)).1.reconnectCount = s.reconnectCount ∧
      ∀ ms, Effect.scheduleOpen ms ∉ (step cfg s (.storage "sliverui-auth" v)).2) := by
  cases v with
  | parsed tok =>
      cases htok : jsTruthyStr tok <;> cases hw : s.ws.isSome <;>
        simp [step, handleStorageChange, hasNewToken, htok, hw]
  | null =>
      cases hw : s.ws.isSome <;>
        simp [step, handleStorageChange, hasNewToken, hw]
  | malformed =>
      cases hw : s.ws.isSome <;>
        simp [step, handleStorageChange, hasNewToken, hw]

/-- C5 witness: the amended statement evaluated on the open state with retry
counter 3 and a credential change carrying a new valid token: the counter is
reset and a 100 ms reconnection is scheduled. -/
theorem C5_witness :
    (step defaultOptions c5State (.storage "sliverui-auth" (.parsed (some "newtok")))).1.reconnectCount
      = 0 ∧
    Effect.scheduleOpen 100 ∈
      (step defaultOptions c5State (.storage "sliverui-auth" (.parsed (some "newtok")))).2 :=
  (C5_credential_change defaultOptions c5State (.parsed (some "newtok"))).2.2.2.2.1 (by decide)

/-- C6: `disconnect()` from any state clears the pending reconnect timer,
closes the socket cleanly (code 1000) when one exists, nulls the ref and
drops the connected flag; on the resulting state a reconnect-timer expiry is
a no-op (a cleared timer never fires), so a previously scheduled retry can
never run after `disconnect()` returns. -/
theorem C6_disconnect_cancels (cfg : HookOptions) (s : HookState) :
    (step cfg s .userDisconnect).1.timerPending = false ∧
    (step cfg s .userDisconnect).1.ws = none ∧
    (step cfg s .userDisconnect).1.isConnected = false ∧
    (s.ws.isSome = true →
      (step cfg s .userDisconnect).2 = [.closeWS 1000 "User initiated disconnect"]) ∧
    step cfg (step cfg s .userDisconnect).1 .timerFire =
      ((step cfg s .userDisconnect).1, []) := by
  refine ⟨rfl, rfl, rfl, ?_, rfl⟩
  intro hw
  simp [step, disconnect, hw]

/-- A connected state with a pending reconnect timer. -/
def c6State : HookState :=
  { w1State with ws := some ⟨.effect, .OPEN⟩, isConnected := true, timerPending := true }

/-- C6 witness: disconnecting the connected state emits exactly the clean
socket close. -/
theorem C6_witness :
    (step defaultOptions c6State .userDisconnect).2 =
      [.closeWS 1000 "User initiated disconnect"] :=
  (C6_disconnect_cancels defaultOptions c6State).2.2.2.1 rfl

/-- C9: `send(data)` checks `readyState`: when the socket is absent or not
OPEN it only warns — nothing is transmitted, the state (hence any buffer) is
unchanged, and the total function cannot throw; only with an OPEN socket is
the JSON serialization of the payload transmitted. -/
theorem C9_send_guard (cfg : HookOptions) (s : HookState) (d : JsValue) :
    (s.ws.map Sock.ready ≠ some ReadyState.OPEN →
      step cfg s (.userSend d) = (s, [.consoleWarn "WebSocket is not connected"])) ∧
    (s.ws.map Sock.ready = some ReadyState.OPEN →
      step cfg s (.userSend d) = (s, [.sendFrame (jsonStringify d)])) := by
  constructor
  · intro h; simp [step, send, h]
  · intro h; simp [step, send, h]

/-- C9 witness: sending on the freshly initialized state (no socket) is a
warn-only no-op. -/
theorem C9_witness :
    step defaultOptions w1State (.userSend (.str "ping")) =
      (w1State, [.consoleWarn "WebSocket is not connected"]) :=
  (C9_send_guard defaultOptions w1State (.str "ping")).1 (by decide)

/-- The tunnel lifecycle states (spec §3). -/
inductive TunnelState where
  | Starting
  | Active
  | Stopping
  | Closed
  | Failed
deriving DecidableEq, Repr

/-- The teardown actions of a tunnel stop (spec §4.1). -/
inductive TeardownEffect where
  | closeLocalListener
  | channelTransportClose
  | forceCloseSubStreams
deriving DecidableEq, Repr

/-- The synchronous result of `StopTunnel` (spec §4.1 and §6). -/
inductive StopResult where
  | ok
  | error (msg : String)
deriving DecidableEq, Repr

/-- Modelled from the spec: the backend `StopTunnel(sessionId, tunnelId)`
operation of the TunnelManager is not among the sources under `src/` — only
its frontend caller (`CDPConnect.tsx`, `stopMutation`) is. Spec §4.1:
"StopTunnel(sessionId, tunnelId) → Ok | Error. Idempotent: stopping an
already-Closed/Failed tunnel returns success without side effects.
Transitions Active → Stopping → Closed, closes the local listener, calls
ChannelTransport.Close, and force-closes any SubStreams", with §3's
monotonicity (no transition out of Closed/Failed). -/
def stopTunnel : TunnelState → TunnelState × List TeardownEffect × StopResult
  | .Closed => (.Closed, [], .ok)
  | .Failed => (.Failed, [], .ok)
  | _ => (.Closed, [.closeLocalListener, .channelTransportClose, .forceCloseSubStreams], .ok)

/-- C8: `StopTunnel` is idempotent — on an already-`Closed` or `Failed` tunnel
it returns success with no teardown side effects and leaves the state
unchanged, and for every starting state a repeated stop of the same tunnel
succeeds without re-triggering any teardown. -/
theorem C8_stopTunnel_idempotent :
    stopTunnel .Closed = (.Closed, [], .ok) ∧
    stopTunnel .Failed = (.Failed, [], .ok) ∧
    ∀ t : TunnelState, stopTunnel (stopTunnel t).1 = ((stopTunnel t).1, [], .ok) := by
  refine ⟨rfl, rfl, ?_⟩
  intro t
  cases t <;> rfl

end SliverUI
